import Mathlib

/-!
Verification of the outbound-call system against its specification.

The definitions below are a shallow embedding of the call-lifecycle code of
the repository: the legacy Flask application (src/app.py) and the v2 service
layer (src/src/core/services.py, src/src/utils/validators.py,
src/src/web/routes.py). Python strings become Lean String / List Char,
SQLite rows become structures, the SQLite calls table becomes a list of rows,
wall-clock timestamps become opaque Int tokens, and the remote provider is a
parameter: a list of poll responses consumed one per loop iteration.
-/

namespace CallSys

/-! ## Substring machinery (the Python `in` operator and occurrence counting) -/

/-- Characterwise prefix test on character lists. -/
def isPrefixCh : List Char → List Char → Bool
  | [], _ => true
  | _ :: _, [] => false
  | a :: as, b :: bs => a == b && isPrefixCh as bs

/-- Substring containment on character lists, modelling the Python
`needle in haystack` test on strings. -/
def containsSub (needle : List Char) : List Char → Bool
  | [] => isPrefixCh needle []
  | b :: bs => isPrefixCh needle (b :: bs) || containsSub needle bs

/-- Number of starting positions at which the needle occurs in the haystack. -/
def countOcc (needle : List Char) : List Char → Nat
  | [] => if isPrefixCh needle [] then 1 else 0
  | b :: bs => (if isPrefixCh needle (b :: bs) then 1 else 0) + countOcc needle bs

/-- Lower-cased character list of a string, modelling `transcript.lower()`. -/
def lowerStr (s : String) : List Char := s.data.map Char.toLower

/-! ## The success classifier (analyze_call_success, src/app.py lines 682-705) -/

/-- Success phrase list of analyze_call_success in src/app.py. -/
def successPhrases : List String :=
  ["account adjusted", "adjustment made", "change completed",
   "updated successfully", "modification complete", "done",
   "processed", "completed", "confirmed", "yes, that\x27s done"]

/-- Failure phrase list of analyze_call_success in src/app.py. -/
def failurePhrases : List String :=
  ["cannot do that", "unable to", "not authorized", "need verification",
   "callback required", "supervisor needed", "system down"]

/-- Number of phrases from the list that occur in the text: the Python
`sum(1 for phrase in phrases if phrase in transcript_lower)`, which scores
each phrase at most once however often it occurs. -/
def presenceScore (phrases : List String) (t : List Char) : Nat :=
  phrases.countP (fun p => containsSub p.data t)

/-- analyze_call_success from src/app.py lines 682-705: a falsy (missing or
empty) transcript returns False, otherwise the count of success phrases
present in the lower-cased transcript is compared with the count of failure
phrases present. -/
def analyze_call_success : Option String → Bool
  | none => false
  | some s =>
      if s.data.isEmpty then false
      else decide (presenceScore failurePhrases (lowerStr s) <
        presenceScore successPhrases (lowerStr s))

/-- Total number of occurrences of the phrases of a list in the text. -/
def occurrenceScore (phrases : List String) (t : List Char) : Nat :=
  (phrases.map (fun p => countOcc p.data t)).sum

/-- Modelled from the spec: the section 4.3 classifier stated with the words
of the spec (count OCCURRENCES of positive and negative phrases and compare),
kept beside analyze_call_success so that the two can be compared. -/
def classifySpec : Option String → Bool
  | none => false
  | some s =>
      if s.data.isEmpty then false
      else decide (occurrenceScore failurePhrases (lowerStr s) <
        occurrenceScore successPhrases (lowerStr s))

/-! ## Helper lemmas about substring search -/

theorem isPrefixCh_append (n h h2 : List Char) (hp : isPrefixCh n h = true) :
    isPrefixCh n (h ++ h2) = true := by
  induction n generalizing h with
  | nil => simp [isPrefixCh]
  | cons a as ih =>
    cases h with
    | nil => simp [isPrefixCh] at hp
    | cons b bs =>
      simp only [isPrefixCh, Bool.and_eq_true] at hp
      simp only [List.cons_append, isPrefixCh, Bool.and_eq_true]
      exact ⟨hp.1, ih bs hp.2⟩

theorem containsSub_nil_needle (h : List Char) : containsSub [] h = true := by
  cases h <;> simp [containsSub, isPrefixCh]

theorem containsSub_append (n h h2 : List Char) (hc : containsSub n h = true) :
    containsSub n (h ++ h2) = true := by
  induction h with
  | nil =>
    simp only [containsSub] at hc
    cases n with
    | nil => simpa using containsSub_nil_needle h2
    | cons a as => simp [isPrefixCh] at hc
  | cons b bs ih =>
    simp only [containsSub, Bool.or_eq_true] at hc
    simp only [List.cons_append, containsSub, Bool.or_eq_true]
    rcases hc with hc | hc
    · exact Or.inl (isPrefixCh_append n (b :: bs) h2 hc)
    · exact Or.inr (ih hc)

theorem containsSub_eq_decide_countOcc (n h : List Char) :
    containsSub n h = decide (0 < countOcc n h) := by
  induction h with
  | nil =>
    cases hp : isPrefixCh n [] <;> simp [containsSub, countOcc, hp]
  | cons b bs ih =>
    cases hp : isPrefixCh n (b :: bs) with
    | true =>
      have hpos : 0 < countOcc n (b :: bs) := by
        simp only [countOcc, hp, if_true]; omega
      simp [containsSub, hp, hpos]
    | false => simp [containsSub, countOcc, hp, ih]

/-- The presence score is the length of the filtered phrase list. -/
theorem presenceScore_eq_filter (phrases : List String) (t : List Char) :
    presenceScore phrases t =
      (phrases.filter (fun p => decide (0 < countOcc p.data t))).length := by
  rw [presenceScore, List.countP_eq_length_filter]
  congr 1
  exact List.filter_congr (fun p _ => containsSub_eq_decide_countOcc p.data t)

/-- Appending text never loses a phrase that was already present. -/
theorem presenceScore_le_append (phrases : List String) (t u : List Char) :
    presenceScore phrases t ≤ presenceScore phrases (t ++ u) :=
  List.countP_mono_left (fun p _ hp => containsSub_append p.data t u hp)

theorem lowerStr_append (s t : String) :
    lowerStr (s ++ t) = lowerStr s ++ lowerStr t := by
  simp [lowerStr, String.data_append]

/-! ## Claims C8 and C9: the success classifier -/

/-- C8, counterexample. The claim says classify is true exactly when the
positive-phrase OCCURRENCE count exceeds the negative one. On the transcript
"done done unable to" there are two occurrences of the success phrase "done"
against one occurrence of the failure phrase "unable to", so the claimed rule
(and the spec-worded classifier) answers true, yet analyze_call_success
answers false: the code counts each phrase at most once. -/
theorem c8_counterexample :
    analyze_call_success (some "done done unable to") = false ∧
    occurrenceScore successPhrases (lowerStr "done done unable to") = 2 ∧
    occurrenceScore failurePhrases (lowerStr "done done unable to") = 1 ∧
    classifySpec (some "done done unable to") = true := by decide

/-- C8, amended: analyze_call_success is true iff the transcript is present
and non-empty and the number of DISTINCT success phrases occurring in the
lower-cased transcript (phrases with at least one occurrence) strictly
exceeds the number of distinct failure phrases occurring; a missing or empty
transcript classifies as false. -/
theorem c8_amended (t : Option String) :
    analyze_call_success t = true ↔
      ∃ s, t = some s ∧ s.data.isEmpty = false ∧
        (failurePhrases.filter
          (fun p => decide (0 < countOcc p.data (lowerStr s)))).length <
        (successPhrases.filter
          (fun p => decide (0 < countOcc p.data (lowerStr s)))).length := by
  cases t with
  | none => simp [analyze_call_success]
  | some s =>
    cases he : s.data.isEmpty with
    | true =>
      simp [analyze_call_success, he, List.isEmpty_iff.mp he]
    | false =>
      simp only [analyze_call_success, he, Bool.false_eq_true, if_false,
        decide_eq_true_iff]
      constructor
      · intro h
        rw [presenceScore_eq_filter, presenceScore_eq_filter] at h
        exact ⟨s, rfl, he, h⟩
      · rintro ⟨s2, hs, h1, hlt⟩
        injection hs with hs2
        subst hs2
        rw [presenceScore_eq_filter, presenceScore_eq_filter]
        exact hlt

/-- C9, counterexample. "done" is a success phrase; the transcript
"done not authorize" classifies true, but appending one more occurrence of
"done" completes the failure phrase "not authorized" across the boundary and
the classification flips to false. -/
theorem c9_counterexample :
    ("done" ∈ successPhrases) ∧
    analyze_call_success (some "done not authorize") = true ∧
    analyze_call_success (some ("done not authorize" ++ "done")) = false := by
  exact ⟨by decide, by decide, by decide⟩

/-- C9, amended: appending text to a transcript that classifies true keeps
the classification true whenever the appended text does not raise the
failure-phrase presence score (in particular, appending a success phrase
that completes no new failure-phrase occurrence). -/
theorem c9_amended (t p : String)
    (h1 : analyze_call_success (some t) = true)
    (h2 : presenceScore failurePhrases (lowerStr (t ++ p)) =
      presenceScore failurePhrases (lowerStr t)) :
    analyze_call_success (some (t ++ p)) = true := by
  have hne : t.data.isEmpty = false := by
    cases hh : t.data.isEmpty with
    | false => rfl
    | true => simp [analyze_call_success, hh] at h1
  have hlt : presenceScore failurePhrases (lowerStr t) <
      presenceScore successPhrases (lowerStr t) := by
    simpa [analyze_call_success, hne] using h1
  have htd : ¬ t.data = [] := by
    intro hc
    rw [hc] at hne
    simp at hne
  have hne2 : (t ++ p).data.isEmpty = false := by
    rw [String.data_append]
    cases ht : t.data with
    | nil => exact absurd ht htd
    | cons a as => rfl
  have hmono : presenceScore successPhrases (lowerStr t) ≤
      presenceScore successPhrases (lowerStr (t ++ p)) := by
    rw [lowerStr_append]
    exact presenceScore_le_append _ _ _
  have hfin : presenceScore failurePhrases (lowerStr (t ++ p)) <
      presenceScore successPhrases (lowerStr (t ++ p)) := by
    rw [h2]
    exact lt_of_lt_of_le hlt hmono
  simp [analyze_call_success, hne2, hfin]
  exact Or.inl htd

/-- C9, witness for the amended theorem at a concrete input. -/
theorem c9_amended_witness :
    analyze_call_success (some "done") = true ∧
    presenceScore failurePhrases (lowerStr ("done" ++ " confirmed")) =
      presenceScore failurePhrases (lowerStr "done") ∧
    analyze_call_success (some ("done" ++ " confirmed")) = true :=
  ⟨by decide, by decide, c9_amended "done" " confirmed" (by decide) (by decide)⟩

/-! ## The calls table of src/app.py (class CallDatabase) -/

/-- One row of the calls table created by CallDatabase.init_database in
src/app.py lines 280-306. Timestamps are opaque Int tokens. -/
structure CallRecord where
  id : String
  phone_number : String
  caller_name : String
  caller_phone : String
  account_action : String
  additional_info : String
  status : String
  call_id : String
  created_at : Int
  completed_at : Option Int
  duration : Option Int
  transcript : Option String
  success : Option Bool
  error_message : Option String
deriving DecidableEq

/-- One key/value entry of the updates dictionary passed to
CallDatabase.update_call, one SET clause of the built statement. The
constructors list exactly the columns the application ever updates. -/
inductive FieldUpd where
  | status (s : String)
  | call_id (s : String)
  | completed_at (t : Int)
  | duration (n : Int)
  | transcript (s : String)
  | success (b : Bool)
  | error_message (s : String)
deriving DecidableEq

/-- Apply one SET clause to a row. -/
def applyUpd (r : CallRecord) : FieldUpd → CallRecord
  | .status s => { r with status := s }
  | .call_id s => { r with call_id := s }
  | .completed_at t => { r with completed_at := some t }
  | .duration n => { r with duration := some n }
  | .transcript s => { r with transcript := some s }
  | .success b => { r with success := some b }
  | .error_message s => { r with error_message := some s }

/-- A partial update seen as a map: for each updatable column, the value the
partial assigns to it, when it assigns one. -/
structure PartialUpd where
  status : Option String
  call_id : Option String
  completed_at : Option Int
  duration : Option Int
  transcript : Option String
  success : Option Bool
  error_message : Option String
deriving DecidableEq

/-- The partial update that assigns nothing. -/
def emptyPartial : PartialUpd := ⟨none, none, none, none, none, none, none⟩

/-- Record one SET clause into the map form of a partial update. -/
def absorb (p : PartialUpd) : FieldUpd → PartialUpd
  | .status s => { p with status := some s }
  | .call_id s => { p with call_id := some s }
  | .completed_at t => { p with completed_at := some t }
  | .duration n => { p with duration := some n }
  | .transcript s => { p with transcript := some s }
  | .success b => { p with success := some b }
  | .error_message s => { p with error_message := some s }

/-- The map form of a list of SET clauses (later entries win, as in a
Python dict). -/
def collapse (upds : List FieldUpd) : PartialUpd := upds.foldl absorb emptyPartial

/-- Merge a partial update into a row: a column the partial assigns takes
the assigned value, every other column keeps its prior value. -/
def applyPartial (r : CallRecord) (p : PartialUpd) : CallRecord :=
  { id := r.id
    phone_number := r.phone_number
    caller_name := r.caller_name
    caller_phone := r.caller_phone
    account_action := r.account_action
    additional_info := r.additional_info
    status := p.status.getD r.status
    call_id := p.call_id.getD r.call_id
    created_at := r.created_at
    completed_at := match p.completed_at with
      | some t => some t
      | none => r.completed_at
    duration := match p.duration with
      | some n => some n
      | none => r.duration
    transcript := match p.transcript with
      | some s => some s
      | none => r.transcript
    success := match p.success with
      | some b => some b
      | none => r.success
    error_message := match p.error_message with
      | some s => some s
      | none => r.error_message }

/-- CallDatabase.update_call, src/app.py lines 335-357. The updates
dictionary is modelled as the ordered list of its entries. With an empty
dictionary the code builds the statement `UPDATE calls SET  WHERE id = ?`,
which is an SQL syntax error: the exception handler logs it and returns
False, and no row changes. Otherwise every SET clause is applied, in order,
to every row whose primary key matches, and the function returns True (also
when no row matches, since the UPDATE then affects zero rows). -/
def update_call (db : List CallRecord) (cid : String) (upds : List FieldUpd) :
    List CallRecord × Bool :=
  if upds.isEmpty then (db, false)
  else (db.map (fun r => if r.id == cid then upds.foldl applyUpd r else r), true)

/-- CallDatabase.get_call, src/app.py lines 378-392: the first row with the
given primary key, if any. -/
def get_call_row (db : List CallRecord) (cid : String) : Option CallRecord :=
  db.find? (fun r => r.id == cid)

/-- CallDatabase.save_call, src/app.py lines 308-333: the INSERT raises on a
duplicate primary key, which the handler turns into False; otherwise the row
is appended and the function returns True. -/
def save_call (db : List CallRecord) (r : CallRecord) : List CallRecord × Bool :=
  if db.any (fun x => x.id == r.id) then (db, false) else (db ++ [r], true)

/-! ## Claim C10: update_call applies a partial merge -/

theorem foldl_applyUpd_eq_applyPartial (l : List FieldUpd) (r : CallRecord)
    (p : PartialUpd) :
    l.foldl applyUpd (applyPartial r p) = applyPartial r (l.foldl absorb p) := by
  induction l generalizing p with
  | nil => rfl
  | cons u t ih =>
    have hstep : applyUpd (applyPartial r p) u = applyPartial r (absorb p u) := by
      cases u <;> rfl
    rw [List.foldl_cons, hstep, List.foldl_cons]
    exact ih (absorb p u)

theorem applyPartial_empty (r : CallRecord) : applyPartial r emptyPartial = r := rfl

/-- C10: update_call overwrites, in the row whose id matches, exactly the
columns present in the partial (later duplicate keys winning, as in a dict),
leaves absent columns and all other rows unchanged, and reports success
exactly when the partial is non-empty; in particular an empty partial leaves
the store untouched and reports False (the built SQL statement is
syntactically invalid and the exception handler discards it). -/
theorem c10_update_partial_merge (db : List CallRecord) (cid : String)
    (upds : List FieldUpd) :
    update_call db cid [] = (db, false) ∧
    update_call db cid upds =
      (db.map (fun r => if r.id == cid then applyPartial r (collapse upds) else r),
       !upds.isEmpty) := by
  constructor
  · rfl
  · cases hu : upds.isEmpty with
    | true =>
      have hnil : upds = [] := List.isEmpty_iff.mp hu
      subst hnil
      simp only [update_call, List.isEmpty_nil, if_true, Bool.not_true]
      have hmap : db.map
          (fun r => if r.id == cid then applyPartial r (collapse []) else r) = db := by
        have : ∀ r : CallRecord,
            (if r.id == cid then applyPartial r (collapse []) else r) = r := by
          intro r
          cases hb : r.id == cid
          · simp
          · simp [collapse, applyPartial_empty]
        calc db.map (fun r => if r.id == cid then applyPartial r (collapse []) else r)
            = db.map id := List.map_congr_left (fun r _ => this r)
          _ = db := List.map_id db
      rw [hmap]
    | false =>
      have hne : ¬ upds.isEmpty = true := by simp [hu]
      simp only [update_call, if_neg hne, hu, Bool.not_false]
      have : ∀ r : CallRecord, upds.foldl applyUpd r = applyPartial r (collapse upds) := by
        intro r
        have h0 := foldl_applyUpd_eq_applyPartial upds r emptyPartial
        rw [applyPartial_empty] at h0
        exact h0
      have hmap : db.map (fun r => if r.id == cid then upds.foldl applyUpd r else r) =
          db.map (fun r => if r.id == cid then applyPartial r (collapse upds) else r) :=
        List.map_congr_left (fun r _ => by rw [this r])
      rw [hmap]
      simp

/-! ## The request body and the two validators -/

/-- The JSON body of POST /api/calls; a key the caller omitted is none, as
returned by Python data.get(field). -/
structure RequestData where
  phone_number : Option String
  caller_name : Option String
  caller_phone : Option String
  account_action : Option String
  additional_info : Option String
deriving DecidableEq

/-- Python truthiness of data.get(field) for a string-valued field: a missing
key and the empty string are falsy. -/
def truthy : Option String → Bool
  | none => false
  | some s => !s.isEmpty

/-- Look a field of the body up by the name used in the required-field lists. -/
def getField (d : RequestData) : String → Option String
  | "phone_number" => d.phone_number
  | "caller_name" => d.caller_name
  | "caller_phone" => d.caller_phone
  | "account_action" => d.account_action
  | "additional_info" => d.additional_info
  | _ => none

/-- Field order of the required-field loop of create_call, src/app.py
line 435. -/
def requiredFieldsApp : List String :=
  ["phone_number", "caller_name", "caller_phone", "account_action"]

/-- HTTP response of the create_call route. -/
inductive ApiResp where
  | ok (call_id : String)
  | badRequest (msg : String)
  | serverError (msg : String)
deriving DecidableEq

/-- The row that create_call inserts: the body fields, status initiating and
an empty provider call id (src/app.py lines 443-452). -/
def mkRecord (newId : String) (d : RequestData) (now : Int) : CallRecord :=
  { id := newId
    phone_number := d.phone_number.getD ""
    caller_name := d.caller_name.getD ""
    caller_phone := d.caller_phone.getD ""
    account_action := d.account_action.getD ""
    additional_info := d.additional_info.getD ""
    status := "initiating"
    call_id := ""
    created_at := now
    completed_at := none
    duration := none
    transcript := none
    success := none
    error_message := none }

/-- The create_call route, src/app.py lines 428-473: a loop over the required
fields answers 400 for the FIRST falsy field; otherwise a fresh identifier is
generated (here a parameter), the row is persisted with status initiating and
the identifier is returned at once. The provider is contacted only afterwards
by a background thread (initiate_call_async), never inside this function, so
the response never waits on network I/O. -/
def appCreateCall (d : RequestData) (newId : String) (now : Int)
    (db : List CallRecord) : List CallRecord × ApiResp :=
  match requiredFieldsApp.find? (fun f => !truthy (getField d f)) with
  | some f => (db, .badRequest ("Missing required field: " ++ f))
  | none =>
      match save_call db (mkRecord newId d now) with
      | (db2, true) => (db2, .ok newId)
      | (_, false) => (db, .serverError "Failed to save call to database")

/-- Field order of the required-field loop of validate_call_request,
src/src/utils/validators.py line 12. -/
def requiredFieldsV : List String :=
  ["caller_name", "caller_phone", "phone_number", "account_action"]

/-- The per-field condition of the v2 required loop:
`not data.get(field) or not str(data[field]).strip()` — missing, empty, or
whitespace-only. -/
def reqMissing : Option String → Bool
  | none => true
  | some s => s.isEmpty || s.trim.isEmpty

/-- Keep only digits and the plus sign:
`re.sub` of every character outside `[^\d+]` in validate_phone_number. -/
def cleanPhone (s : String) : List Char :=
  s.data.filter (fun c => c.isDigit || c == '+')

/-- Drop one leading occurrence of the character, when it is there. -/
def dropLead (c : Char) (l : List Char) : List Char :=
  match l with
  | x :: xs => if x == c then xs else l
  | [] => l

/-- Ten to fourteen digits and nothing else. -/
def digitsRun (l : List Char) : Bool :=
  l.all Char.isDigit && decide (10 ≤ l.length) && decide (l.length ≤ 14)

/-- validate_phone_number, validators.py lines 38-50: after cleaning, the
cleaned text must match the pattern of an optional leading plus, an optional
leading one, then 10 to 14 digits (the regex with its backtracking choices
spelled out). -/
def validate_phone_number (s : String) : Bool :=
  digitsRun (cleanPhone s) || digitsRun (dropLead '1' (cleanPhone s)) ||
    digitsRun (dropLead '+' (cleanPhone s)) ||
    digitsRun (dropLead '1' (dropLead '+' (cleanPhone s)))

/-- validate_call_request, src/src/utils/validators.py lines 7-36: one error
per empty required field (all of them, in loop order), then the phone-format
checks, then the length checks. -/
def validate_call_request (d : RequestData) : List String :=
  ((requiredFieldsV.filter (fun f => reqMissing (getField d f))).map
    (fun f => f ++ " is required")) ++
  ((if truthy d.caller_phone && !validate_phone_number (d.caller_phone.getD "") then
      ["caller_phone must be a valid phone number"] else []) ++
   (if truthy d.phone_number && !validate_phone_number (d.phone_number.getD "") then
      ["phone_number must be a valid phone number"] else [])) ++
  ((if truthy d.caller_name && decide (100 < (d.caller_name.getD "").length) then
      ["caller_name must be less than 100 characters"] else []) ++
   (if truthy d.account_action && decide (1000 < (d.account_action.getD "").length) then
      ["account_action must be less than 1000 characters"] else []) ++
   (if truthy d.additional_info && decide (2000 < (d.additional_info.getD "").length) then
      ["additional_info must be less than 2000 characters"] else []))

/-! ## Claim C2: validation lists every empty field -/

/-- C2, counterexample. A body with BOTH phone_number empty and caller_name
missing: the create_call route of src/app.py answers with a message naming
only phone_number — the first falsy field of its loop — and caller_name is
not mentioned anywhere in the message; nothing is persisted. -/
theorem c2_counterexample :
    appCreateCall ⟨some "", none, some "+15551112222", some "close account", none⟩
        "id1" 0 [] =
      ([], ApiResp.badRequest ("Missing required field: " ++ "phone_number")) ∧
    containsSub "caller_name".data ("Missing required field: " ++ "phone_number").data
      = false ∧
    reqMissing (some "") = true ∧
    reqMissing none = true := by decide

/-- C2, amended: the v2 validator validate_call_request does list every empty
required field — for every body and every required field whose value is
missing, empty or whitespace-only, the field error is in the returned list
(the legacy app.py route reports only the first such field, as the
counterexample shows). -/
theorem c2_amended (d : RequestData) (f : String)
    (hf : f ∈ requiredFieldsV) (hm : reqMissing (getField d f) = true) :
    (f ++ " is required") ∈ validate_call_request d := by
  unfold validate_call_request
  refine List.mem_append_left _ (List.mem_append_left _ ?_)
  exact List.mem_map.mpr ⟨f, List.mem_filter.mpr ⟨hf, hm⟩, rfl⟩

/-- C2, witness: a body with every required field missing; the caller_name
error is in the list produced by validate_call_request. -/
theorem c2_amended_witness :
    ("caller_name" ∈ requiredFieldsV) ∧
    reqMissing (getField ⟨none, none, none, none, none⟩ "caller_name") = true ∧
    ("caller_name" ++ " is required") ∈
      validate_call_request ⟨none, none, none, none, none⟩ :=
  ⟨by decide, by decide,
    c2_amended ⟨none, none, none, none, none⟩ "caller_name" (by decide) (by decide)⟩

/-! ## Claim C3: what submit persists before returning -/

/-- C3, counterexample. On a fully valid body over an empty store, the
create_call route persists the row and returns the fresh identifier, but the
persisted status is the string initiating, not pending as the claim states. -/
theorem c3_counterexample :
    (appCreateCall ⟨some "+15553334444", some "Jane Doe", some "+15551112222",
        some "close account", none⟩ "id9" 0 []).2 = ApiResp.ok "id9" ∧
    ((appCreateCall ⟨some "+15553334444", some "Jane Doe", some "+15551112222",
        some "close account", none⟩ "id9" 0 []).1).map CallRecord.status =
      ["initiating"] ∧
    ("initiating" : String) ≠ "pending" := by decide

/-- C3, amended: for every body whose four required fields are truthy and
every identifier not already present, the route persists the row with status
initiating, answers ok with the identifier, and an immediately following get
finds the row; the provider is contacted only by the background thread after
the response, never inside the route. -/
theorem c3_amended (d : RequestData) (newId : String) (now : Int)
    (db : List CallRecord)
    (hval : ∀ f ∈ requiredFieldsApp, truthy (getField d f) = true)
    (hfresh : db.any (fun r => r.id == newId) = false) :
    appCreateCall d newId now db = (db ++ [mkRecord newId d now], ApiResp.ok newId) ∧
    get_call_row (appCreateCall d newId now db).1 newId = some (mkRecord newId d now) ∧
    (mkRecord newId d now).status = "initiating" := by
  have hfind : requiredFieldsApp.find? (fun f => !truthy (getField d f)) = none := by
    rw [List.find?_eq_none]
    intro f hf
    rw [hval f hf]
    simp
  have hsave : save_call db (mkRecord newId d now) = (db ++ [mkRecord newId d now], true) := by
    unfold save_call
    rw [if_neg]
    intro hc
    rw [show (mkRecord newId d now).id = newId from rfl] at hc
    rw [hfresh] at hc
    exact Bool.false_ne_true hc
  have hmain : appCreateCall d newId now db =
      (db ++ [mkRecord newId d now], ApiResp.ok newId) := by
    unfold appCreateCall
    rw [hfind, hsave]
  refine ⟨hmain, ?_, rfl⟩
  rw [hmain]
  unfold get_call_row
  rw [List.find?_append]
  have hnone : db.find? (fun r => r.id == newId) = none := by
    rw [List.find?_eq_none]
    intro r hr hc
    have : db.any (fun r => r.id == newId) = true := List.any_eq_true.mpr ⟨r, hr, hc⟩
    rw [hfresh] at this
    exact Bool.false_ne_true this
  rw [hnone]
  have hb : ((mkRecord newId d now).id == newId) = true := beq_self_eq_true newId
  simp [List.find?, hb]

/-- C3, witness for the amended theorem at a concrete valid body. -/
theorem c3_amended_witness :
    (∀ f ∈ requiredFieldsApp,
      truthy (getField ⟨some "+15553334444", some "Jane Doe", some "+15551112222",
        some "close account", none⟩ f) = true) ∧
    get_call_row (appCreateCall ⟨some "+15553334444", some "Jane Doe",
        some "+15551112222", some "close account", none⟩ "id7" 3 []).1 "id7" =
      some (mkRecord "id7" ⟨some "+15553334444", some "Jane Doe",
        some "+15551112222", some "close account", none⟩ 3) ∧
    (mkRecord "id7" ⟨some "+15553334444", some "Jane Doe", some "+15551112222",
        some "close account", none⟩ 3).status = "initiating" :=
  ⟨by decide,
   (c3_amended ⟨some "+15553334444", some "Jane Doe", some "+15551112222",
      some "close account", none⟩ "id7" 3 [] (by decide) (by decide)).2.1,
   (c3_amended ⟨some "+15553334444", some "Jane Doe", some "+15551112222",
      some "close account", none⟩ "id7" 3 [] (by decide) (by decide)).2.2⟩

/-! ## The terminate route of src/app.py (claim C4, counterexample side) -/

/-- The terminate_call route, src/app.py lines 760-786, with
SynthflowAPI.terminate_call inlined: that method only logs and always returns
success (the provider has no termination API), so the route unconditionally
marks the row terminated with a completion timestamp and answers success; the
stored status is never consulted. -/
def appTerminate (db : List CallRecord) (cid : String) (now : Int) :
    List CallRecord × Bool :=
  ((update_call db cid [FieldUpd.status "terminated", FieldUpd.completed_at now]).1,
   true)

/-! ## The v2 service layer (src/src/core/services.py) -/

/-- Modelled from the spec: the CallStatus enumeration of
src/src/core/models.py, a file absent from the source tree; the values follow
the section 4.4 state machine and are pinned by tests/unit/test_models.py. -/
inductive CallStatus where
  | pending
  | initiating
  | dialing
  | in_progress
  | completed
  | failed
  | terminated
  | no_answer
  | busy
deriving DecidableEq

/-- Modelled from the spec: the Call record of src/src/core/models.py (absent
from the tree), restricted to the fields read or written by terminate_call
and cleanup_stuck_calls. -/
structure VCall where
  id : String
  status : CallStatus
  created_at : Int
  completed_at : Option Int
  error_message : Option String
deriving DecidableEq

/-- Modelled from the spec: CallStore get of section 4.2 (database.py is
absent from the tree): the stored record with the given id, if any. -/
def storeGet (store : List VCall) (cid : String) : Option VCall :=
  store.find? (fun c => c.id == cid)

/-- Modelled from the spec: CallStore update of section 4.2 (database.py is
absent): merge the mutation into every record with the id; ok exactly when
the id is present. -/
def storeUpdate (store : List VCall) (cid : String) (f : VCall → VCall) :
    List VCall × Bool :=
  (store.map (fun c => if c.id == cid then f c else c),
   store.any (fun c => c.id == cid))

/-- CallService.terminate_call, src/src/core/services.py lines 233-260:
fail when the call is unknown; fail (and change nothing) when its status is
neither DIALING nor IN_PROGRESS; otherwise set TERMINATED with a completion
timestamp and return the update result. -/
def terminate_call_v2 (store : List VCall) (cid : String) (now : Int) :
    Bool × List VCall :=
  match storeGet store cid with
  | none => (false, store)
  | some c =>
      if c.status == CallStatus.dialing || c.status == CallStatus.in_progress then
        let u := storeUpdate store cid
          (fun x => { x with status := CallStatus.terminated, completed_at := some now })
        (u.2, u.1)
      else (false, store)

/-- Finding by id commutes with an id-preserving conditional map. -/
theorem find_id_map (l : List VCall) (cid : String) (f : VCall → VCall)
    (hf : ∀ x, (f x).id = x.id) :
    (l.map (fun c => if c.id == cid then f c else c)).find? (fun c => c.id == cid) =
      (l.find? (fun c => c.id == cid)).map (fun c => if c.id == cid then f c else c) := by
  induction l with
  | nil => rfl
  | cons h t ih =>
    cases hb : h.id == cid with
    | true =>
      have hhead : (if h.id == cid then f h else h) = f h := if_pos hb
      have hfb : ((f h).id == cid) = true := by rw [hf h]; exact hb
      rw [List.map_cons, hhead,
        @List.find?_cons_of_pos VCall (fun c => c.id == cid) (f h)
          (List.map (fun c => if c.id == cid then f c else c) t) hfb,
        @List.find?_cons_of_pos VCall (fun c => c.id == cid) h t hb]
      simp [hhead]
      rw [if_pos (eq_of_beq hb)]
    | false =>
      have hnb : ¬ (h.id == cid) = true := by simp [hb]
      have hhead : (if h.id == cid then f h else h) = h := if_neg hnb
      rw [List.map_cons, hhead,
        @List.find?_cons_of_neg VCall (fun c => c.id == cid) h
          (List.map (fun c => if c.id == cid then f c else c) t) hnb,
        @List.find?_cons_of_neg VCall (fun c => c.id == cid) h t hnb]
      exact ih

/-! ## Claim C4: terminate -/

/-- A stored row already in the terminal status completed, used as the
concrete input of the C4 counterexample. -/
def recCompleted : CallRecord :=
  { id := "c1"
    phone_number := "+15553334444"
    caller_name := "Jane Doe"
    caller_phone := "+15551112222"
    account_action := "close account"
    additional_info := ""
    status := "completed"
    call_id := "prov-1"
    created_at := 0
    completed_at := some 10
    duration := some 60
    transcript := some "ok"
    success := some true
    error_message := none }

/-- C4, counterexample. A store holding one call whose status is the terminal
string completed: the terminate route of src/app.py still answers success and
overwrites the row with status terminated and a fresh completion timestamp,
where the claim demands an error and an unchanged record. -/
theorem c4_counterexample :
    recCompleted.status = "completed" ∧
    (appTerminate [recCompleted] "c1" 99).2 = true ∧
    (appTerminate [recCompleted] "c1" 99).1.map CallRecord.status =
      ["terminated"] := by decide

/-- The concrete one-call store of the C4 witness. -/
def dialingCall : VCall := ⟨"a", CallStatus.dialing, 0, none, none⟩

/-- C4, amended: the v2 CallService.terminate_call does satisfy the claim —
it succeeds iff the call exists with status DIALING or IN_PROGRESS, in which
case the record becomes TERMINATED with the completion timestamp; in every
other case it returns False and the store is unchanged. The legacy app.py
route instead terminates unconditionally, as the counterexample shows. -/
theorem c4_amended (store : List VCall) (cid : String) (now : Int) :
    ((terminate_call_v2 store cid now).1 = true ↔
      ∃ c, storeGet store cid = some c ∧
        (c.status = CallStatus.dialing ∨ c.status = CallStatus.in_progress)) ∧
    ((terminate_call_v2 store cid now).1 = false →
      (terminate_call_v2 store cid now).2 = store) ∧
    (∀ c, storeGet store cid = some c →
      (c.status = CallStatus.dialing ∨ c.status = CallStatus.in_progress) →
      storeGet (terminate_call_v2 store cid now).2 cid =
        some { c with status := CallStatus.terminated, completed_at := some now }) := by
  cases hg : storeGet store cid with
  | none =>
    refine ⟨?_, ?_, ?_⟩
    · simp only [terminate_call_v2, hg]
      constructor
      · intro h
        exact absurd h (by simp)
      · rintro ⟨c, hc, _⟩
        exact absurd hc (by simp)
    · intro _
      simp only [terminate_call_v2, hg]
    · intro c hc hor
      exact absurd hc (by simp)
  | some c =>
    cases hs : (c.status == CallStatus.dialing || c.status == CallStatus.in_progress) with
    | false =>
      have hns : ¬ (c.status = CallStatus.dialing ∨ c.status = CallStatus.in_progress) := by
        intro hc
        rcases hc with hc | hc <;> simp [hc] at hs
      refine ⟨?_, ?_, ?_⟩
      · simp only [terminate_call_v2, hg, hs, Bool.false_eq_true, if_false]
        constructor
        · intro h
          exact absurd h (by simp)
        · rintro ⟨c2, hc2, hor⟩
          injection hc2 with hc3
          subst hc3
          exact absurd hor hns
      · intro _
        simp only [terminate_call_v2, hg, hs, Bool.false_eq_true, if_false]
      · intro c2 hc2 hor
        injection hc2 with hc3
        subst hc3
        exact absurd hor hns
    | true =>
      have hg2 : List.find? (fun x => x.id == cid) store = some c := hg
      have hmem : c ∈ store := List.mem_of_find?_eq_some hg2
      have hcid : (c.id == cid) = true :=
        @List.find?_some VCall (fun x => x.id == cid) c store hg2
      have hany : store.any (fun x => x.id == cid) = true :=
        List.any_eq_true.mpr ⟨c, hmem, hcid⟩
      have hor : c.status = CallStatus.dialing ∨ c.status = CallStatus.in_progress := by
        have hcopy := hs
        simp only [Bool.or_eq_true, beq_iff_eq] at hcopy
        exact hcopy
      refine ⟨?_, ?_, ?_⟩
      · simp only [terminate_call_v2, hg, hs, eq_self_iff_true, if_true, storeUpdate]
        constructor
        · intro _
          exact ⟨c, rfl, hor⟩
        · intro _
          exact hany
      · intro hfalse
        simp only [terminate_call_v2, hg, hs, eq_self_iff_true, if_true,
          storeUpdate] at hfalse
        rw [hany] at hfalse
        exact absurd hfalse (by simp)
      · intro c2 hc2 hor2
        injection hc2 with hc3
        subst hc3
        simp only [terminate_call_v2, hg, hs, eq_self_iff_true, if_true, storeUpdate]
        unfold storeGet
        rw [find_id_map store cid
          (fun x => { x with status := CallStatus.terminated, completed_at := some now })
          (fun x => rfl), hg2]
        simp [hcid]
        intro hcc
        exact absurd (eq_of_beq hcid) hcc

/-- C4, witness for the amended theorem: one DIALING call, terminated. -/
theorem c4_amended_witness :
    storeGet (terminate_call_v2 [dialingCall] "a" 5).2 "a" =
      some { dialingCall with status := CallStatus.terminated, completed_at := some 5 } :=
  (c4_amended [dialingCall] "a" 5).2.2 dialingCall (by decide) (Or.inl rfl)
/-! ## Claim C7: the stale-call cleanup sweep (services.py lines 262-293) -/

/-- Modelled from the spec: CallStore list with limit and offset
(database.py absent); per the section 4.2 contract the store sequence is kept
newest-created first, and the list operation pages through it. -/
def storeList (store : List VCall) (limit offset : Nat) : List VCall :=
  (store.drop offset).take limit

/-- The status test of cleanup_stuck_calls: DIALING, IN_PROGRESS or
INITIATING (PENDING is NOT in the list the code checks). -/
def stuckStatus (c : VCall) : Bool :=
  c.status == CallStatus.dialing || c.status == CallStatus.in_progress ||
    c.status == CallStatus.initiating

/-- The full stuck test: eligible status and created before the cutoff
now minus 30 minutes. -/
def isStuck (now : Int) (c : VCall) : Bool :=
  stuckStatus c && decide (c.created_at < now - 30 * 60)

/-- The mutation cleanup applies to a stuck call: FAILED, explanatory
message, completion timestamp. -/
def flipStuck (now : Int) (c : VCall) : VCall :=
  { c with
    status := CallStatus.failed
    error_message := some "Call timeout - automatically cleaned up"
    completed_at := some now }

/-- One iteration of the cleanup loop: update the store and count the
update when it reports ok. -/
def cleanupStep (now : Int) (acc : List VCall × Nat) (c : VCall) :
    List VCall × Nat :=
  let u := storeUpdate acc.1 c.id (flipStuck now)
  (u.1, if u.2 then acc.2 + 1 else acc.2)

/-- CallService.cleanup_stuck_calls, src/src/core/services.py lines 262-293:
fetch at most 1000 calls, keep those whose status is DIALING, IN_PROGRESS or
INITIATING and whose creation time is more than 30 minutes before now, then
update each of them to FAILED with the explanatory message and a completion
timestamp, counting the successful updates. -/
def cleanup_stuck_calls (store : List VCall) (now : Int) : Nat × List VCall :=
  let stuck := (storeList store 1000 0).filter (isStuck now)
  let final := stuck.foldl (cleanupStep now) (store, 0)
  (final.2, final.1)

theorem flipStuck_id (now : Int) (x : VCall) : (flipStuck now x).id = x.id := rfl

theorem flipStuck_flipStuck (now : Int) (x : VCall) :
    flipStuck now (flipStuck now x) = flipStuck now x := rfl

/-- An id-preserving conditional map does not change which ids are present. -/
theorem anyId_map (st : List VCall) (f : VCall → VCall)
    (hf : ∀ x, (f x).id = x.id) (cid cid2 : String) :
    (st.map (fun x => if x.id == cid2 then f x else x)).any
      (fun x => x.id == cid) = st.any (fun x => x.id == cid) := by
  induction st with
  | nil => rfl
  | cons h t ih =>
    have hid : ((if h.id == cid2 then f h else h)).id = h.id := by
      cases hx : h.id == cid2
      · simp
      · simp [hf h]
    simp only [List.map_cons, List.any_cons, ih, hid]

/-- Folding the per-call store updates equals mapping the folded per-record
update over the store. -/
theorem foldStores_eq_map (now : Int) (sub : List VCall) (st : List VCall) :
    sub.foldl (fun acc c => (storeUpdate acc c.id (flipStuck now)).1) st =
      st.map (fun x =>
        sub.foldl (fun y c => if y.id == c.id then flipStuck now y else y) x) := by
  induction sub generalizing st with
  | nil => simp
  | cons c cs ih =>
    simp only [List.foldl_cons]
    rw [ih ((storeUpdate st c.id (flipStuck now)).1)]
    rw [show (storeUpdate st c.id (flipStuck now)).1 =
      st.map (fun x => if x.id == c.id then flipStuck now x else x) from rfl]
    rw [List.map_map]
    rfl

/-- The folded per-record update flips the record iff its id is hit. -/
theorem applySeq_eq (now : Int) (sub : List VCall) (x : VCall) :
    sub.foldl (fun y c => if y.id == c.id then flipStuck now y else y) x =
      if sub.any (fun c => x.id == c.id) then flipStuck now x else x := by
  induction sub generalizing x with
  | nil => simp
  | cons c cs ih =>
    simp only [List.foldl_cons, List.any_cons]
    by_cases hb : (x.id == c.id) = true
    · rw [if_pos hb, ih (flipStuck now x)]
      simp [flipStuck_id, flipStuck_flipStuck, hb, ite_self]
    · have hbf : (x.id == c.id) = false := Bool.eq_false_iff.mpr hb
      rw [if_neg hb, ih x]
      simp only [hbf, Bool.false_or]

/-- In a store with unique ids, the filtered stuck list hits exactly the
records that themselves satisfy the stuck test. -/
theorem stuck_any_iff (store : List VCall) (now : Int) (x : VCall)
    (hnd : (store.map VCall.id).Nodup) (hx : x ∈ store) :
    (store.filter (isStuck now)).any (fun c => x.id == c.id) = isStuck now x := by
  cases hp : isStuck now x with
  | true =>
    apply List.any_eq_true.mpr
    exact ⟨x, List.mem_filter.mpr ⟨hx, hp⟩, beq_self_eq_true x.id⟩
  | false =>
    apply Bool.eq_false_iff.mpr
    intro hc
    obtain ⟨c, hcmem, hceq⟩ := List.any_eq_true.mp hc
    have hcstore : c ∈ store := (List.mem_filter.mp hcmem).1
    have hcp : isStuck now c = true := (List.mem_filter.mp hcmem).2
    have hxc : x = c := List.inj_on_of_nodup_map hnd hx hcstore (eq_of_beq hceq)
    rw [← hxc, hp] at hcp
    exact absurd hcp (by simp)

/-- The cleanup fold splits into the store fold and the count, when every
processed call has its id in the store. -/
theorem cleanup_fold_split (now : Int) (sub : List VCall) :
    ∀ (st : List VCall) (n : Nat),
      (∀ c ∈ sub, st.any (fun x => x.id == c.id) = true) →
      sub.foldl (cleanupStep now) (st, n) =
        (sub.foldl (fun acc c => (storeUpdate acc c.id (flipStuck now)).1) st,
         n + sub.length) := by
  induction sub with
  | nil =>
    intro st n _
    simp
  | cons c cs ih =>
    intro st n hany
    have hc : st.any (fun x => x.id == c.id) = true :=
      hany c (List.mem_cons_self c cs)
    simp only [List.foldl_cons]
    have hstep : cleanupStep now (st, n) c =
        ((storeUpdate st c.id (flipStuck now)).1, n + 1) := by
      unfold cleanupStep storeUpdate
      rw [hc]
      simp
    have hany2 : ∀ c2 ∈ cs,
        ((storeUpdate st c.id (flipStuck now)).1).any (fun x => x.id == c2.id) = true := by
      intro c2 hc2
      rw [show (storeUpdate st c.id (flipStuck now)).1 =
        st.map (fun x => if x.id == c.id then flipStuck now x else x) from rfl]
      rw [anyId_map st (flipStuck now) (fun x => rfl) c2.id c.id]
      exact hany c2 (List.mem_cons_of_mem c hc2)
    rw [hstep, ih ((storeUpdate st c.id (flipStuck now)).1) (n + 1) hany2]
    simp only [List.length_cons, Prod.mk.injEq]
    exact ⟨trivial, by omega⟩

/-- A stale PENDING record, the concrete input of the C7 counterexample. -/
def stalePending : VCall := ⟨"p1", CallStatus.pending, 0, none, none⟩

/-- C7, counterexample. A PENDING call created 40 minutes before now is in a
non-terminal state and older than the 30-minute staleness threshold, so the
claim requires cleanupStuck to flip it to FAILED; cleanup_stuck_calls leaves
it untouched and reports zero cleaned calls, because its status list covers
only DIALING, IN_PROGRESS and INITIATING. -/
theorem c7_counterexample :
    cleanup_stuck_calls [stalePending] 2400 = (0, [stalePending]) ∧
    stalePending.created_at < 2400 - 30 * 60 ∧
    stalePending.status = CallStatus.pending ∧
    CallStatus.pending ≠ CallStatus.failed := by decide

/-- C7, amended: on a store with unique ids holding at most 1000 calls,
cleanup_stuck_calls transitions to FAILED (with the explanatory message and a
completion timestamp) exactly the calls whose status is DIALING, IN_PROGRESS
or INITIATING and whose creation time is more than 30 minutes old, leaves
every other record — including stale PENDING calls — unchanged, and returns
the number of flipped calls. -/
theorem c7_amended (store : List VCall) (now : Int)
    (hnd : (store.map VCall.id).Nodup) (hlen : store.length ≤ 1000) :
    cleanup_stuck_calls store now =
      ((store.filter (isStuck now)).length,
       store.map (fun c => if isStuck now c then flipStuck now c else c)) := by
  have hall : storeList store 1000 0 = store := by
    unfold storeList
    rw [List.drop_zero]
    exact List.take_of_length_le hlen
  have hsubany : ∀ c ∈ store.filter (isStuck now),
      store.any (fun x => x.id == c.id) = true := by
    intro c hcm
    exact List.any_eq_true.mpr ⟨c, (List.mem_filter.mp hcm).1, beq_self_eq_true c.id⟩
  simp only [cleanup_stuck_calls, hall]
  rw [cleanup_fold_split now (store.filter (isStuck now)) store 0 hsubany]
  rw [foldStores_eq_map]
  have hmap : store.map (fun x => (store.filter (isStuck now)).foldl
      (fun y c => if y.id == c.id then flipStuck now y else y) x) =
      store.map (fun c => if isStuck now c then flipStuck now c else c) := by
    apply List.map_congr_left
    intro x hx
    rw [applySeq_eq]
    rw [stuck_any_iff store now x hnd hx]
  rw [hmap]
  simp

/-- The two-call store of the C7 witness: one IN_PROGRESS call created 40
minutes before now = 2400 and one IN_PROGRESS call created 5 minutes before. -/
def staleInProgress : VCall := ⟨"a", CallStatus.in_progress, 0, none, none⟩

/-- The fresh IN_PROGRESS call of the C7 witness. -/
def freshInProgress : VCall := ⟨"b", CallStatus.in_progress, 2100, none, none⟩

/-- C7, witness: of the two IN_PROGRESS calls only the 40-minute-old one is
flipped to FAILED, and the count is one. -/
theorem c7_amended_witness :
    cleanup_stuck_calls [staleInProgress, freshInProgress] 2400 =
      (1, [flipStuck 2400 staleInProgress, freshInProgress]) :=
  (c7_amended [staleInProgress, freshInProgress] 2400 (by decide)
    (by decide)).trans (by decide)

/-! ## The polling loop (monitor_call_progress, src/app.py lines 562-681) -/

/-- Provider response to one status poll: an error payload, or a payload
whose calls array carries the status strings of its entries together with
the top-level duration field (0 when absent). -/
inductive PollResult where
  | err (msg : String)
  | ok (calls : List String) (duration : Int)
deriving DecidableEq

/-- Status extraction of monitor_call_progress, src/app.py lines 583-588:
the status of the first entry of response.calls, unknown when the array is
missing or empty. -/
def extractStatus : List String → String
  | [] => "unknown"
  | s :: _ => s

/-- The four provider statuses the loop treats as finished. -/
def isTerm4 (s : String) : Bool :=
  s == "completed" || s == "failed" || s == "no_answer" || s == "busy"

/-- The diagnostic message written when a call is stuck in queue. -/
def stuckMsg : String :=
  "Call stuck in queue - likely missing phone number or account issue"

/-- The fields of the monitored call row that the loop writes. The loop only
ever updates the row of its own call id through db.update_call, so it is
modelled directly on that row. -/
structure MonRecord where
  status : String
  error_message : Option String
  completed_at : Option Int
  duration : Option Int
  transcript : Option String
  success : Option Bool
deriving DecidableEq

/-- The while loop of monitor_call_progress. fuel is max_polls minus the
number of completed polls (12 at entry); polls is the stream of provider
responses, one consumed per iteration; tr is the transcript that the final
get_call_transcript fetch produces (the empty string on a fetch error);
dnow stands for datetime.now(). Returns the row, the poll count and the last
observed status. An error response on a poll with count at most 3 is
skipped; an error on any later poll breaks the loop. A terminal provider
status writes the final row and breaks. A queue status on poll 6 or later
writes the stuck-in-queue failure and breaks. The record is never read. -/
def monLoop (tr : String) (dnow : Int) :
    Nat → Nat → Option String → MonRecord → List PollResult →
    MonRecord × Nat × Option String
  | 0, pc, last, rec, _ => (rec, pc, last)
  | _ + 1, pc, last, rec, [] => (rec, pc, last)
  | fuel + 1, pc, last, rec, p :: rest =>
      match p with
      | .err _ =>
          if 3 < pc + 1 then (rec, pc + 1, last)
          else monLoop tr dnow fuel (pc + 1) last rec rest
      | .ok calls dur =>
          if isTerm4 (extractStatus calls) then
            ({ status := extractStatus calls
               error_message := rec.error_message
               completed_at := some dnow
               duration := some dur
               transcript := some tr
               success := some (analyze_call_success (some tr)) },
             pc + 1, some (extractStatus calls))
          else if extractStatus calls == "queue" && decide (6 ≤ pc + 1) then
            ({ rec with
               status := "failed"
               error_message := some stuckMsg
               completed_at := some dnow },
             pc + 1, some (extractStatus calls))
          else monLoop tr dnow fuel (pc + 1) (some (extractStatus calls)) rec rest

/-- monitor_call_progress with the post-loop timeout handling of src/app.py
lines 651-664: when the loop ends with the full poll budget consumed and the
last observed status not terminal, the row is overwritten with status
timeout. Returns the final row and the number of polls consumed. -/
def runMonitor (rec : MonRecord) (polls : List PollResult) (tr : String)
    (dnow : Int) : MonRecord × Nat :=
  let r := monLoop tr dnow 12 0 none rec polls
  if decide (12 ≤ r.2.1) &&
      !(match r.2.2 with | none => false | some s => isTerm4 s) then
    ({ r.1 with
       status := "timeout"
       error_message := some "Call monitoring timeout"
       completed_at := some dnow },
     r.2.1)
  else (r.1, r.2.1)

/-! ## Claim C1: terminal statuses and post-terminal polls -/

/-- A record already in the terminal status terminated, the concrete input of
the C1 counterexample. -/
def recTerminated : MonRecord := ⟨"terminated", none, some 100, none, none, none⟩

/-- C1, counterexample. The record is already TERMINATED (as after a
terminate request), yet the next poll iteration observes the provider status
completed and WRITES it: the stored status changes from terminated to
completed instead of the poll result being discarded. -/
theorem c1_counterexample :
    recTerminated.status = "terminated" ∧
    (runMonitor recTerminated [PollResult.ok ["completed"] 30] "hello" 200).1.status
      = "completed" ∧
    ("completed" : String) ≠ "terminated" := by decide

/-- C1, amended: the polling loop never reads the stored record, so a poll
result observed after the record became terminal is written, not discarded —
from ANY stored status (terminated included), a poll whose first calls entry
is completed overwrites the row with status completed, the transcript
fetch result and the classifier verdict, and stops after that poll. -/
theorem c1_amended (rec : MonRecord) (cs : List String) (dur : Int)
    (rest : List PollResult) (tr : String) (dnow : Int) :
    runMonitor rec (PollResult.ok ("completed" :: cs) dur :: rest) tr dnow =
      ({ status := "completed"
         error_message := rec.error_message
         completed_at := some dnow
         duration := some dur
         transcript := some tr
         success := some (analyze_call_success (some tr)) }, 1) := rfl

/-! ## Claim C5: calls stuck in queue -/

/-- C5: when the provider reports the queue status for 7 consecutive polls
(more than the threshold of 6), the loop stops at poll 6 — before the poll
budget of 12 is consumed — and writes status failed with the stuck-in-queue
diagnostic message and a completion timestamp; the remaining responses are
never requested. -/
theorem c5_queue_stuck (rec : MonRecord) (c1 c2 c3 c4 c5 c6 c7 : List String)
    (d1 d2 d3 d4 d5 d6 d7 : Int) (rest : List PollResult) (tr : String)
    (dnow : Int) :
    runMonitor rec
      (PollResult.ok ("queue" :: c1) d1 :: PollResult.ok ("queue" :: c2) d2 ::
       PollResult.ok ("queue" :: c3) d3 :: PollResult.ok ("queue" :: c4) d4 ::
       PollResult.ok ("queue" :: c5) d5 :: PollResult.ok ("queue" :: c6) d6 ::
       PollResult.ok ("queue" :: c7) d7 :: rest) tr dnow =
      ({ rec with
         status := "failed"
         error_message := some stuckMsg
         completed_at := some dnow }, 6) ∧
    6 < 12 := ⟨rfl, by decide⟩

/-! ## Claim C6: provider errors during polling -/

/-- A record in the non-terminal status initiated, the concrete input of the
C6 counterexample. -/
def recInitiated : MonRecord := ⟨"initiated", none, none, none, none, none⟩

/-- C6, counterexample. A SINGLE provider error on poll 4 aborts the loop:
only 4 of the 5 responses are consumed, the completed status waiting at
poll 5 is never observed, and the record is left untouched (in particular it
is not marked failed, and no run of 3 consecutive errors occurred — polls
1 to 3 succeeded). -/
theorem c6_counterexample :
    runMonitor recInitiated
      [PollResult.ok ["in_progress"] 0, PollResult.ok ["in_progress"] 0,
       PollResult.ok ["in_progress"] 0, PollResult.err "boom",
       PollResult.ok ["completed"] 0] "t" 9 = (recInitiated, 4) ∧
    recInitiated.status = "initiated" := by decide

/-- C6, amended: a provider error on one of the first three polls is skipped
and polling continues (here poll 2 still observes completed and writes it);
a provider error on any poll after the third aborts the loop immediately,
leaving the record unchanged — the call is not marked failed. -/
theorem c6_amended (rec : MonRecord) (e : String) (cs a1 a2 a3 : List String)
    (dur e1 e2 e3 : Int) (rest : List PollResult) (tr : String) (dnow : Int) :
    (runMonitor rec
      (PollResult.err e :: PollResult.ok ("completed" :: cs) dur :: rest)
      tr dnow).1.status = "completed" ∧
    runMonitor rec
      (PollResult.ok ("in_progress" :: a1) e1 ::
       PollResult.ok ("in_progress" :: a2) e2 ::
       PollResult.ok ("in_progress" :: a3) e3 ::
       PollResult.err e :: rest) tr dnow = (rec, 4) := ⟨rfl, rfl⟩

end CallSys

